import Mathlib

/-!
Verification development for a repository of MCP (Model Context Protocol)
tool-dispatch adapter processes (Telegram, Supabase, Bluesky, RSS,
Obsidian, Apple Shortcuts, iOS Simulator).  Each adapter advertises a
static tool catalog and dispatches Call-Tool invocations to an external
backing capability.  We shallowly embed each adapter's request handlers as
pure Lean functions: the asynchronous backing capability is passed in as
an oracle function, and the list of capability calls the handler performs
is returned alongside the dispatch result, so side-effect claims become
statements about that list.
-/

/-- JSON values as exchanged in tool arguments and capability results.
JavaScript `undefined` is modelled by `Option Json` being `none` at the
use sites (absent object fields), never as a `Json` constructor. -/
inductive Json where
  | null : Json
  | bool (b : Bool) : Json
  | num (n : Int) : Json
  | str (s : String) : Json
  | arr (elems : List Json) : Json
  | obj (fields : List (String × Json)) : Json

/-- JavaScript truthiness of a JSON value (`0`, `""`, `false`, `null` are
falsy; objects and arrays are truthy). -/
def jsTruthy : Json → Bool
  | Json.null => false
  | Json.bool b => b
  | Json.num n => n != 0
  | Json.str s => s != ""
  | Json.arr _ => true
  | Json.obj _ => true

/-- Truthiness of a possibly-absent (undefined) value. -/
def jsTruthyOpt : Option Json → Bool
  | none => false
  | some j => jsTruthy j

/-- Property lookup on an arguments object (`args.key`); `none` models
JavaScript `undefined`.  Argument objects in the repository never repeat
keys, so first-match lookup coincides with object semantics. -/
def getField (args : List (String × Json)) (key : String) : Option Json :=
  match args with
  | [] => none
  | (k, v) :: rest => if k = key then some v else getField rest key

/-- One escape step of the JSON string serializer. -/
def jsonEscapeChar (c : Char) : String :=
  if c = '\"' then "\\\""
  else if c = '\\' then "\\\\"
  else if c = '\n' then "\\n"
  else String.singleton c

/-- Quote a string as a JSON string literal. -/
def jsonQuote (s : String) : String :=
  "\"" ++ String.join (s.toList.map jsonEscapeChar) ++ "\""

mutual
/-- Model of `JSON.stringify` as used by the adapters (the optional
pretty-printing indentation `null, 2` only inserts whitespace and is
abstracted away; no claim depends on the exact spacing). -/
def jsonStringify : Json → String
  | Json.null => "null"
  | Json.bool true => "true"
  | Json.bool false => "false"
  | Json.num n => toString n
  | Json.str s => jsonQuote s
  | Json.arr xs => "[" ++ jsonStringifyList xs ++ "]"
  | Json.obj fs => "\x7b" ++ jsonStringifyFields fs ++ "\x7d"

/-- Comma-separated serialization of array elements. -/
def jsonStringifyList : List Json → String
  | [] => ""
  | [x] => jsonStringify x
  | x :: y :: xs => jsonStringify x ++ "," ++ jsonStringifyList (y :: xs)

/-- Comma-separated serialization of object fields. -/
def jsonStringifyFields : List (String × Json) → String
  | [] => ""
  | [(k, v)] => jsonQuote k ++ ":" ++ jsonStringify v
  | (k, v) :: f :: fs =>
      jsonQuote k ++ ":" ++ jsonStringify v ++ "," ++ jsonStringifyFields (f :: fs)
end

/-- MCP protocol error codes used by the adapters (JSON-RPC numbering,
as defined by the `@modelcontextprotocol/sdk` `ErrorCode` enum). -/
inductive ErrorCode where
  | methodNotFound : ErrorCode
  | invalidParams : ErrorCode
  | internalError : ErrorCode
deriving DecidableEq, Repr

/-- Numeric value of each error code (JSON-RPC standard codes). -/
def ErrorCode.toInt : ErrorCode → Int
  | ErrorCode.methodNotFound => -32601
  | ErrorCode.invalidParams => -32602
  | ErrorCode.internalError => -32603

/-- A thrown JavaScript error inside a handler: either a plain `Error`
(whose `.message` is the constructor argument) or an SDK `McpError`
(whose `.message` is rendered as "MCP error <code>: <message>" by the
SDK's constructor). -/
inductive JsError where
  | plain (message : String) : JsError
  | mcp (code : ErrorCode) (message : String) : JsError

/-- The `.message` property a catch block observes on a thrown error. -/
def JsError.message : JsError → String
  | JsError.plain m => m
  | JsError.mcp c m => "MCP error " ++ toString c.toInt ++ ": " ++ m

/-- One content block of a result envelope. -/
structure ContentBlock where
  type : String
  text : String
deriving DecidableEq, Repr

/-- The result envelope returned by a Call-Tool handler.  `isError` is an
`Option` because most adapters omit the field on success (absence is
treated as false by the protocol). -/
structure ResultEnvelope where
  content : List ContentBlock
  isError : Option Bool
deriving DecidableEq, Repr

/-- The outcome of one Call-Tool dispatch as observed at the transport
boundary: a returned envelope, a returned bare `toolResult` value (the
ios-simulator adapter's shape), a thrown `McpError`, or a thrown plain
`Error`. -/
inductive DispatchResult where
  | env (e : ResultEnvelope) : DispatchResult
  | toolResult (value : Json) : DispatchResult
  | mcpError (code : ErrorCode) (message : String) : DispatchResult
  | errorThrown (message : String) : DispatchResult

/-! ## Tool schemas and catalogs -/

/-- The parts of an advertised tool schema the claims refer to: the tool
name, description, the declared property names, the declared `required`
list, and any `default` values declared inside the property schemas. -/
structure ToolSchema where
  name : String
  description : String
  properties : List String
  required : List String
  defaults : List (String × Json)

/-! ## Telegram adapter (telegram server source file) -/

/-- Catalog advertised by the Telegram server's ListTools handler. -/
def telegramTools : List ToolSchema :=
  [ { name := "send_message"
      description := "Send a message to a Telegram chat"
      properties := ["chat_id", "text", "parse_mode"]
      required := ["chat_id", "text"]
      defaults := [] },
    { name := "get_chat"
      description := "Get information about a chat"
      properties := ["chat_id"]
      required := ["chat_id"]
      defaults := [] },
    { name := "send_photo"
      description := "Send a photo to a Telegram chat"
      properties := ["chat_id", "photo", "caption"]
      required := ["chat_id", "photo"]
      defaults := [] },
    { name := "get_updates"
      description := "Get latest updates/messages from the bot"
      properties := ["limit", "timeout"]
      required := []
      defaults := [] } ]

/-- The Telegram ListTools handler: returns the static catalog, reading
no state. -/
def telegramListHandler (_ : Unit) : List ToolSchema := telegramTools

/-- A call made to the Telegram bot backing capability, carrying the
(possibly undefined) destructured argument values. -/
inductive TgCall where
  | sendMessage (chatId text parseMode : Option Json) : TgCall
  | getChat (chatId : Option Json) : TgCall
  | sendPhoto (chatId photo caption : Option Json) : TgCall
  | getUpdates (limit timeout : Json) : TgCall

/-- Run one Telegram capability call and wrap a success the way every
case of the handler's switch does: a single text block containing the
JSON serialization of the result, with no `isError` field.  The switch
performs no argument validation — arguments are destructured directly
(missing fields become `none`) and the capability is always invoked for
a known tool; the default case throws `McpError(MethodNotFound, ...)`.
The second component lists the capability calls made. -/
def telegramRun (o : TgCall → Except String Json) (call : TgCall) :
    Except JsError ResultEnvelope × List TgCall :=
  match o call with
  | Except.ok r =>
      (Except.ok { content := [{ type := "text", text := jsonStringify r }],
                   isError := none }, [call])
  | Except.error m => (Except.error (JsError.plain m), [call])

/-- Body of the Telegram CallTool handler switch, continued: dispatch on
the tool name to the corresponding capability call. -/
def telegramTry (o : TgCall → Except String Json) (name : String)
    (args : List (String × Json)) :
    Except JsError ResultEnvelope × List TgCall :=
  if name = "send_message" then
    telegramRun o (TgCall.sendMessage (getField args "chat_id")
      (getField args "text") (getField args "parse_mode"))
  else if name = "get_chat" then
    telegramRun o (TgCall.getChat (getField args "chat_id"))
  else if name = "send_photo" then
    telegramRun o (TgCall.sendPhoto (getField args "chat_id")
      (getField args "photo") (getField args "caption"))
  else if name = "get_updates" then
    telegramRun o (TgCall.getUpdates ((getField args "limit").getD (Json.num 10))
      ((getField args "timeout").getD (Json.num 0)))
  else
    (Except.error (JsError.mcp ErrorCode.methodNotFound ("Unknown tool: " ++ name)), [])

/-- The Telegram CallTool handler.  The catch block wraps every error
thrown inside the try — including the default case's MethodNotFound
McpError — into a freshly thrown `McpError(InternalError, "Telegram API
error: " ++ error.message)`. -/
def telegramDispatch (o : TgCall → Except String Json) (name : String)
    (args : List (String × Json)) : DispatchResult × List TgCall :=
  match telegramTry o name args with
  | (Except.ok e, calls) => (DispatchResult.env e, calls)
  | (Except.error err, calls) =>
      (DispatchResult.mcpError ErrorCode.internalError
        ("Telegram API error: " ++ err.message), calls)

/-! ## Discriminators on dispatch results used to state the claims -/

/-- True when the result is a returned envelope with `isError` set true
(the failure-envelope shape of the spec's ResultEnvelope contract). -/
def DispatchResult.isFailureEnvelope : DispatchResult → Bool
  | DispatchResult.env e => e.isError == some true
  | _ => false

/-- True when the dispatch outcome escaped the handler as a thrown
(transport-level) error instead of a returned value. -/
def DispatchResult.isThrown : DispatchResult → Bool
  | DispatchResult.mcpError _ _ => true
  | DispatchResult.errorThrown _ => true
  | _ => false

/-- True when the outcome is an `InvalidParams`-kind outcome: a thrown
`McpError` with the InvalidParams code. -/
def DispatchResult.isInvalidParamsKind : DispatchResult → Bool
  | DispatchResult.mcpError c _ => c == ErrorCode.invalidParams
  | _ => false

/-- True when the outcome is a `MethodNotFound`-kind outcome in the sense
of the claim: either a thrown `McpError` with the MethodNotFound code, or
a returned failure envelope (`isError` true). -/
def DispatchResult.isMethodNotFoundKind : DispatchResult → Bool
  | DispatchResult.mcpError c _ => c == ErrorCode.methodNotFound
  | DispatchResult.env e => e.isError == some true
  | _ => false

/-- True when the result is a returned envelope whose `isError` is not
true and whose content is exactly one block of kind `text` (the success
shape asserted by the round-trip claim). -/
def DispatchResult.isSingleTextSuccessEnvelope : DispatchResult → Bool
  | DispatchResult.env e =>
      (e.isError != some true) &&
      (match e.content with
       | [b] => b.type == "text"
       | _ => false)
  | _ => false

/-! ## Supabase adapter (`src/supabase-server-bk/src/index.ts`) -/

/-- Catalog advertised by the Supabase server's ListTools handler. -/
def supabaseTools : List ToolSchema :=
  [ { name := "execute_sql"
      description := "Execute a raw SQL query"
      properties := ["query"]
      required := ["query"]
      defaults := [] },
    { name := "query_data"
      description := "Query data from a Supabase table with optional filters"
      properties := ["table", "select", "filters", "limit"]
      required := ["table", "select"]
      defaults := [] },
    { name := "insert_data"
      description := "Insert data into a Supabase table"
      properties := ["table", "data"]
      required := ["table", "data"]
      defaults := [] },
    { name := "update_data"
      description := "Update data in a Supabase table"
      properties := ["table", "data", "filters"]
      required := ["table", "data", "filters"]
      defaults := [] },
    { name := "delete_data"
      description := "Delete data from a Supabase table"
      properties := ["table", "filters"]
      required := ["table", "filters"]
      defaults := [] },
    { name := "rpc"
      description := "Call a Postgres function (RPC)"
      properties := ["function", "params"]
      required := ["function"]
      defaults := [] } ]

/-- The Supabase ListTools handler: returns the static catalog. -/
def supabaseListHandler (_ : Unit) : List ToolSchema := supabaseTools

/-- `Object.entries(v)` on a JSON value: objects yield their fields,
strings yield indexed characters, other primitives yield nothing, and
`null` throws a TypeError. -/
def jsObjectEntries : Json → Except String (List (String × Json))
  | Json.null => Except.error "Cannot convert undefined or null to object"
  | Json.obj fs => Except.ok fs
  | Json.str s =>
      Except.ok ((s.toList.enum.map
        (fun p => (toString p.fst, Json.str (String.singleton p.snd)))))
  | _ => Except.ok []

/-- `Object.entries` on a possibly-undefined value; `undefined` throws the
same TypeError as `null`. -/
def jsObjectEntriesOpt : Option Json → Except String (List (String × Json))
  | none => Except.error "Cannot convert undefined or null to object"
  | some j => jsObjectEntries j

/-- JavaScript string coercion inside a template literal. Array and object
coercion text is not exercised by any claim and is abstracted. -/
def jsTemplateString : Json → String
  | Json.null => "null"
  | Json.bool true => "true"
  | Json.bool false => "false"
  | Json.num n => toString n
  | Json.str s => s
  | Json.arr _ => ""
  | Json.obj _ => "[object Object]"

/-- Template-literal coercion of a possibly-undefined value. -/
def jsTemplateStringOpt : Option Json → String
  | none => "undefined"
  | some j => jsTemplateString j

/-- A call issued to the Supabase client: the fully built query (table,
selection, the `eq` filters applied in order, and the applied limit if
any), or one of the other operations. -/
inductive SbCall where
  | queryData (table sel : Option Json) (eqFilters : List (String × Json))
      (limit : Option Json) : SbCall
  | insertData (table data : Option Json) : SbCall
  | updateData (table data : Option Json)
      (eqFilters : List (String × Json)) : SbCall
  | deleteData (table : Option Json) (eqFilters : List (String × Json)) : SbCall
  | rpcCall (funcName : Option Json) (params : Json) : SbCall
  | executeSql (query : String) : SbCall

/-- Body of the Supabase CallTool handler's try block.  `query_data`
defaults `filters` to `{}` and applies `limit` only when truthy
(`if (limit)`), so a zero limit is not applied.  The default case throws
`McpError(MethodNotFound, ...)`. -/
def supabaseTry (o : SbCall → Except String Json) (name : String)
    (args : List (String × Json)) :
    Except JsError ResultEnvelope × List SbCall :=
  if name = "query_data" then
    let table := getField args "table"
    let sel := getField args "select"
    let filters := (getField args "filters").getD (Json.obj [])
    match jsObjectEntries filters with
    | Except.error m => (Except.error (JsError.plain m), [])
    | Except.ok entries =>
      let limit := getField args "limit"
      let applied := if jsTruthyOpt limit then limit else none
      let call := SbCall.queryData table sel entries applied
      match o call with
      | Except.ok data =>
          (Except.ok { content := [{ type := "text", text := jsonStringify data }],
                       isError := none }, [call])
      | Except.error m => (Except.error (JsError.plain m), [call])
  else if name = "insert_data" then
    let call := SbCall.insertData (getField args "table") (getField args "data")
    match o call with
    | Except.ok r =>
        (Except.ok { content := [{ type := "text", text := jsonStringify r }],
                     isError := none }, [call])
    | Except.error m => (Except.error (JsError.plain m), [call])
  else if name = "update_data" then
    let table := getField args "table"
    let data := getField args "data"
    match jsObjectEntriesOpt (getField args "filters") with
    | Except.error m => (Except.error (JsError.plain m), [])
    | Except.ok entries =>
      let call := SbCall.updateData table data entries
      match o call with
      | Except.ok r =>
          (Except.ok { content := [{ type := "text", text := jsonStringify r }],
                       isError := none }, [call])
      | Except.error m => (Except.error (JsError.plain m), [call])
  else if name = "delete_data" then
    let table := getField args "table"
    match jsObjectEntriesOpt (getField args "filters") with
    | Except.error m => (Except.error (JsError.plain m), [])
    | Except.ok entries =>
      let call := SbCall.deleteData table entries
      match o call with
      | Except.ok r =>
          (Except.ok { content := [{ type := "text", text := jsonStringify r }],
                       isError := none }, [call])
      | Except.error m => (Except.error (JsError.plain m), [call])
  else if name = "rpc" then
    let funcName := getField args "function"
    let params := (getField args "params").getD (Json.obj [])
    let call := SbCall.rpcCall funcName params
    match o call with
    | Except.ok data =>
        (Except.ok { content := [{ type := "text", text := jsonStringify data }],
                     isError := none }, [call])
    | Except.error m => (Except.error (JsError.plain m), [call])
  else if name = "execute_sql" then
    let call := SbCall.executeSql (jsTemplateStringOpt (getField args "query"))
    match o call with
    | Except.ok data =>
        (Except.ok { content := [{ type := "text", text := jsonStringify data }],
                     isError := none }, [call])
    | Except.error m => (Except.error (JsError.plain m), [call])
  else
    (Except.error (JsError.mcp ErrorCode.methodNotFound ("Unknown tool: " ++ name)), [])

/-- The Supabase CallTool handler.  Its catch block converts every error
thrown inside the try — capability failures and the default case's
MethodNotFound McpError alike — into a returned failure envelope whose
text is "Error: " followed by the error's message. -/
def supabaseDispatch (o : SbCall → Except String Json) (name : String)
    (args : List (String × Json)) : DispatchResult × List SbCall :=
  match supabaseTry o name args with
  | (Except.ok e, calls) => (DispatchResult.env e, calls)
  | (Except.error err, calls) =>
      (DispatchResult.env
        { content := [{ type := "text", text := "Error: " ++ err.message }],
          isError := some true }, calls)

/-! ## Bluesky adapter (`src/bluesky/bk/index.ts`) -/

/-- The `bluesky_get_profile` tool schema. -/
def getProfileTool : ToolSchema :=
  { name := "bluesky_get_profile"
    description := "Get a user's profile information"
    properties := []
    required := []
    defaults := [] }

/-- The `bluesky_get_posts` tool schema; its `limit` property declares
`default: 50` in the advertised input schema. -/
def getPostsTool : ToolSchema :=
  { name := "bluesky_get_posts"
    description := "Get recent posts from a user"
    properties := ["limit", "cursor"]
    required := []
    defaults := [("limit", Json.num 50)] }

/-- The `bluesky_search_posts` tool schema (declared default 25). -/
def searchPostsTool : ToolSchema :=
  { name := "bluesky_search_posts"
    description := "Search for posts on Bluesky"
    properties := ["query", "limit", "cursor"]
    required := ["query"]
    defaults := [("limit", Json.num 25)] }

/-- The `bluesky_get_follows` tool schema (declared default 50). -/
def getFollowsTool : ToolSchema :=
  { name := "bluesky_get_follows"
    description := "Get a list of accounts the user follows"
    properties := ["limit", "cursor"]
    required := []
    defaults := [("limit", Json.num 50)] }

/-- The `bluesky_get_followers` tool schema (declared default 50). -/
def getFollowersTool : ToolSchema :=
  { name := "bluesky_get_followers"
    description := "Get a list of accounts following the user"
    properties := ["limit", "cursor"]
    required := []
    defaults := [("limit", Json.num 50)] }

/-- The `bluesky_get_liked_posts` tool schema (declared default 50). -/
def getLikedPostsTool : ToolSchema :=
  { name := "bluesky_get_liked_posts"
    description := "Get a list of posts liked by the user"
    properties := ["limit", "cursor"]
    required := []
    defaults := [("limit", Json.num 50)] }

/-- The `bluesky_get_personal_feed` tool schema (declared default 50). -/
def getPersonalFeedTool : ToolSchema :=
  { name := "bluesky_get_personal_feed"
    description := "Get your personalized Bluesky feed"
    properties := ["limit", "cursor"]
    required := []
    defaults := [("limit", Json.num 50)] }

/-- The `bluesky_search_profiles` tool schema (declared default 25). -/
def searchProfilesTool : ToolSchema :=
  { name := "bluesky_search_profiles"
    description := "Search for Bluesky profiles"
    properties := ["query", "limit", "cursor"]
    required := ["query"]
    defaults := [("limit", Json.num 25)] }

/-- Catalog advertised by the Bluesky server's ListTools handler. -/
def blueskyTools : List ToolSchema :=
  [ getProfileTool, getPostsTool, searchPostsTool, getFollowsTool,
    getFollowersTool, getLikedPostsTool, getPersonalFeedTool,
    searchProfilesTool ]

/-- The Bluesky ListTools handler: returns the static catalog. -/
def blueskyListHandler (_ : Unit) : List ToolSchema := blueskyTools

/-- A call made to the Bluesky agent, carrying the raw (possibly
undefined) argument values the handler forwards.  For `searchActors` the
adapter serializes `response.data`; the oracle models that projected
payload directly. -/
inductive BkCall where
  | getProfile (actor : String) : BkCall
  | getAuthorFeed (actor : String) (limit cursor : Option Json) : BkCall
  | searchPosts (q : Json) (limit cursor : Option Json) : BkCall
  | getFollows (actor : String) (limit cursor : Option Json) : BkCall
  | getFollowers (actor : String) (limit cursor : Option Json) : BkCall
  | getActorLikes (actor : String) (limit cursor : Option Json) : BkCall
  | getTimeline (limit cursor : Option Json) : BkCall
  | searchActors (q : Json) (limit cursor : Option Json) : BkCall

/-- Run one Bluesky capability call and wrap a success as the adapter
does: a single text block containing `JSON.stringify(response)`, with no
`isError` field. -/
def blueskyRun (o : BkCall → Except String Json) (call : BkCall) :
    Except JsError ResultEnvelope × List BkCall :=
  match o call with
  | Except.ok r =>
      (Except.ok { content := [{ type := "text", text := jsonStringify r }],
                   isError := none }, [call])
  | Except.error m => (Except.error (JsError.plain m), [call])

/-- Body of the Bluesky CallTool handler's try block.  A missing
`arguments` object throws before the switch; `bluesky_get_posts` forwards
`limit`/`cursor` exactly as destructured — the schema's declared default
of 50 is never substituted; the search tools throw when `query` is falsy;
the default case throws a plain `Error`. -/
def blueskyTry (identifier : String) (o : BkCall → Except String Json)
    (argsOpt : Option (List (String × Json))) (name : String) :
    Except JsError ResultEnvelope × List BkCall :=
  match argsOpt with
  | none => (Except.error (JsError.plain "No arguments provided"), [])
  | some args =>
    if name = "bluesky_get_profile" then
      blueskyRun o (BkCall.getProfile identifier)
    else if name = "bluesky_get_posts" then
      blueskyRun o (BkCall.getAuthorFeed identifier
        (getField args "limit") (getField args "cursor"))
    else if name = "bluesky_search_posts" then
      match getField args "query" with
      | some q =>
          if jsTruthy q then
            blueskyRun o (BkCall.searchPosts q
              (getField args "limit") (getField args "cursor"))
          else
            (Except.error (JsError.plain "Missing required argument: query"), [])
      | none =>
          (Except.error (JsError.plain "Missing required argument: query"), [])
    else if name = "bluesky_get_follows" then
      blueskyRun o (BkCall.getFollows identifier
        (getField args "limit") (getField args "cursor"))
    else if name = "bluesky_get_followers" then
      blueskyRun o (BkCall.getFollowers identifier
        (getField args "limit") (getField args "cursor"))
    else if name = "bluesky_get_liked_posts" then
      blueskyRun o (BkCall.getActorLikes identifier
        (getField args "limit") (getField args "cursor"))
    else if name = "bluesky_get_personal_feed" then
      blueskyRun o (BkCall.getTimeline
        (getField args "limit") (getField args "cursor"))
    else if name = "bluesky_search_profiles" then
      match getField args "query" with
      | some q =>
          if jsTruthy q then
            blueskyRun o (BkCall.searchActors q
              (getField args "limit") (getField args "cursor"))
          else
            (Except.error (JsError.plain "Missing required argument: query"), [])
      | none =>
          (Except.error (JsError.plain "Missing required argument: query"), [])
    else
      (Except.error (JsError.plain ("Unknown tool: " ++ name)), [])

/-- The Bluesky CallTool handler.  Its catch block converts every thrown
error into a returned envelope containing `JSON.stringify({error:
message})` — with no `isError` flag at all. -/
def blueskyDispatch (identifier : String) (o : BkCall → Except String Json)
    (argsOpt : Option (List (String × Json))) (name : String) :
    DispatchResult × List BkCall :=
  match blueskyTry identifier o argsOpt name with
  | (Except.ok e, calls) => (DispatchResult.env e, calls)
  | (Except.error err, calls) =>
      (DispatchResult.env
        { content := [{ type := "text",
                        text := jsonStringify (Json.obj [("error", Json.str err.message)]) }],
          isError := none }, calls)

/-! ## Startup configuration checks (exit-before-serving behaviour) -/

/-- Falsiness of an environment variable value (`undefined` or the empty
string fail a JavaScript `if (!v)` check). -/
def jsStrFalsy : Option String → Bool
  | none => true
  | some s => s == ""

/-- Whether a startup computation succeeded. -/
def startupOk {α : Type} : Except String α → Bool
  | Except.ok _ => true
  | Except.error _ => false

/-- Telegram startup: `process.env.TELEGRAM_BOT_TOKEN` is checked at
module load; a falsy value throws before the server object is even
constructed, so no Call-Tool request can ever be accepted.  On success
the token used to construct the bot handle is returned. -/
def telegramStartup (botToken : Option String) : Except String String :=
  if jsStrFalsy botToken then
    Except.error "TELEGRAM_BOT_TOKEN environment variable is required"
  else Except.ok (botToken.getD "")

/-- Obsidian startup: `process.env.OBSIDIAN_VAULT_PATH` checked at module
load; a falsy value throws before the server is constructed. -/
def obsidianStartup (vaultPath : Option String) : Except String String :=
  if jsStrFalsy vaultPath then
    Except.error "OBSIDIAN_VAULT_PATH environment variable is required"
  else Except.ok (vaultPath.getD "")

/-- Supabase startup: both `SUPABASE_URL` and `SUPABASE_KEY` are checked
at module load; if either is falsy the process throws before the client
is created. -/
def supabaseStartup (url key : Option String) : Except String (String × String) :=
  if jsStrFalsy url || jsStrFalsy key then
    Except.error "SUPABASE_URL and SUPABASE_KEY environment variables are required"
  else Except.ok (url.getD "", key.getD "")

/-- Bluesky startup (`main`): missing credentials cause `process.exit(1)`
before the transport is connected; a failed login also exits.  The login
outcome is supplied as a function of the credential pair. -/
def blueskyStartup (token identifier : Option String)
    (login : String → String → Bool) : Except String String :=
  if jsStrFalsy token || jsStrFalsy identifier then
    Except.error "BLUESKY_APP_KEY and BLUESKY_IDENTIFIER must be set"
  else if login (identifier.getD "") (token.getD "") then
    Except.ok (identifier.getD "")
  else Except.error "Failed to login"

/-! ## RSS feed adapter (rss feed server source file) -/

/-- Catalog advertised by the RSS feed server's ListTools handler. -/
def rssTools : List ToolSchema :=
  [ { name := "fetch_feed"
      description := "Fetch and parse an RSS feed, returning metadata and recent items"
      properties := ["url", "limit"]
      required := ["url"]
      defaults := [] },
    { name := "get_feed_items"
      description := "Get items from an RSS feed with optional filtering"
      properties := ["url", "limit", "filter"]
      required := ["url"]
      defaults := [] } ]

/-- The RSS ListTools handler: returns the static catalog. -/
def rssListHandler (_ : Unit) : List ToolSchema := rssTools

/-- One item of a parsed feed as the `rss-parser` library returns it
(restricted to the fields the adapter reads; each may be absent). -/
structure RssItem where
  title : Option String
  link : Option String
  pubDate : Option String
  content : Option String
  contentSnippet : Option String

/-- A parsed feed as returned by `parser.parseURL` (restricted to the
fields the adapter reads). -/
structure RssFeed where
  title : Option String
  description : Option String
  link : Option String
  lastBuildDate : Option String
  items : List RssItem

/-- An object-literal field whose value may be `undefined`:
`JSON.stringify` omits such fields, which this projection models. -/
def definedFields (fs : List (String × Option Json)) : List (String × Json) :=
  fs.filterMap (fun p => p.snd.map (fun v => (p.fst, v)))

/-- The JSON view of one feed item the adapter serializes. -/
def rssItemJson (it : RssItem) : Json :=
  Json.obj (definedFields
    [("title", it.title.map Json.str),
     ("link", it.link.map Json.str),
     ("pubDate", it.pubDate.map Json.str),
     ("content", it.content.map Json.str),
     ("contentSnippet", it.contentSnippet.map Json.str)])

/-- The JSON view `handleFetchFeed` serializes on success: feed metadata
plus the first `limit` items, each projected to five fields. -/
def rssFetchFeedJson (feed : RssFeed) (keep : List RssItem) : Json :=
  Json.obj (definedFields
    [("title", feed.title.map Json.str),
     ("description", feed.description.map Json.str),
     ("link", feed.link.map Json.str),
     ("lastBuildDate", feed.lastBuildDate.map Json.str),
     ("items", some (Json.arr (keep.map rssItemJson)))])

/-- `xs.slice(0, limit)` for a possibly negative JavaScript number. -/
def jsSliceTo {α : Type} (xs : List α) (limit : Int) : List α :=
  if limit < 0 then xs.take (max (Int.ofNat xs.length + limit) 0).toNat
  else xs.take limit.toNat

/-- `args.limit || 10`: a falsy (absent or zero) limit becomes 10. -/
def rssEffectiveLimit (limit : Option Int) : Int :=
  match limit with
  | some n => if n == 0 then 10 else n
  | none => 10

/-- Date comparison `new Date(a) > new Date(b)`: comparisons against an
invalid date (`NaN`, modelled as `none`) are false. -/
def jsDateGt : Option Int → Option Int → Bool
  | some x, some y => x > y
  | _, _ => false

/-- Date comparison `new Date(a) < new Date(b)` with the same `NaN`
convention. -/
def jsDateLt : Option Int → Option Int → Bool
  | some x, some y => x < y
  | _, _ => false

/-- `new Date(v).getTime()` for a JSON value, given the date-string
parser `dateFn` (`none` = invalid date); numbers are epoch milliseconds,
other value kinds are not exercised by the feeds and yield an invalid
date. -/
def jsDateOf (dateFn : String → Option Int) : Json → Option Int
  | Json.str s => dateFn s
  | Json.num n => some n
  | _ => none

/-- The timestamp of `new Date(item.pubDate || '')`. -/
def rssItemTime (dateFn : String → Option Int) (it : RssItem) : Option Int :=
  dateFn (it.pubDate.getD "")

/-- JavaScript `hay.includes(needle)`. -/
def strIncludes (hay needle : String) : Bool :=
  needle == "" || (hay.splitOn needle).length > 1

/-- The search predicate of `handleGetFeedItems`: any of title, content,
or snippet (lower-cased) contains the lower-cased search term; absent
fields contribute false. -/
def rssSearchMatch (search : String) (it : RssItem) : Bool :=
  (it.title.map (fun t => strIncludes t.toLower search)).getD false ||
  (it.content.map (fun c => strIncludes c.toLower search)).getD false ||
  (it.contentSnippet.map (fun c => strIncludes c.toLower search)).getD false

/-- Property lookup on a JSON value (`v.key`); non-objects have no
string-keyed own properties here. -/
def jsonGetField : Json → String → Option Json
  | Json.obj fs, key => getField fs key
  | _, _ => none

/-- The filtering stage of `handleGetFeedItems`: `after`, `before` and
`search` filters are applied in order when their field is truthy.  A
truthy non-string `search` value would make `toLowerCase` throw, which
surfaces as an error. -/
def rssApplyFilter (dateFn : String → Option Int) (filter : Option Json)
    (items : List RssItem) : Except String (List RssItem) :=
  if jsTruthyOpt filter then
    let f := filter.getD Json.null
    let items1 :=
      match jsonGetField f "after" with
      | some a =>
          if jsTruthy a then
            items.filter (fun it => jsDateGt (rssItemTime dateFn it) (jsDateOf dateFn a))
          else items
      | none => items
    let items2 :=
      match jsonGetField f "before" with
      | some b =>
          if jsTruthy b then
            items1.filter (fun it => jsDateLt (rssItemTime dateFn it) (jsDateOf dateFn b))
          else items1
      | none => items1
    match jsonGetField f "search" with
    | some (Json.str s) =>
        if s == "" then Except.ok items2
        else Except.ok (items2.filter (rssSearchMatch s.toLower))
    | some v =>
        if jsTruthy v then
          Except.error "args.filter.search.toLowerCase is not a function"
        else Except.ok items2
    | none => Except.ok items2
  else Except.ok items

/-- `handleFetchFeed`: fetch and parse the feed; on success serialize the
projected metadata and the first `limit` (default 10) items into one text
block; on any error return a failure envelope. -/
def rssHandleFetchFeed (o : String → Except String RssFeed) (url : String)
    (limit : Option Int) : ResultEnvelope :=
  match o url with
  | Except.ok feed =>
      let eff := rssEffectiveLimit limit
      { content := [{ type := "text",
                      text := jsonStringify (rssFetchFeedJson feed (jsSliceTo feed.items eff)) }],
        isError := none }
  | Except.error m =>
      { content := [{ type := "text", text := "Failed to fetch feed: " ++ m }],
        isError := some true }

/-- `handleGetFeedItems`: fetch, filter, limit (default 10), serialize the
projected item array; any error (fetch failure or a filter-stage throw)
becomes a failure envelope. -/
def rssHandleGetFeedItems (dateFn : String → Option Int)
    (o : String → Except String RssFeed) (url : String)
    (limit : Option Int) (filter : Option Json) : ResultEnvelope :=
  match o url with
  | Except.ok feed =>
      match rssApplyFilter dateFn filter feed.items with
      | Except.ok filtered =>
          let eff := rssEffectiveLimit limit
          { content := [{ type := "text",
                          text := jsonStringify (Json.arr ((jsSliceTo filtered eff).map rssItemJson)) }],
            isError := none }
      | Except.error m =>
          { content := [{ type := "text", text := "Failed to fetch feed items: " ++ m }],
            isError := some true }
  | Except.error m =>
      { content := [{ type := "text", text := "Failed to fetch feed items: " ++ m }],
        isError := some true }

/-- The RSS CallTool handler.  Both tools throw
`McpError(InvalidParams, ...)` before calling the capability when `url`
is not a string; `limit` is forwarded only when it is a number; `filter`
only when `typeof` gives `"object"` (which includes `null` and arrays);
the default case throws `McpError(MethodNotFound, ...)` (there is no
surrounding try, so these McpErrors escape untouched).  The second
component lists the URLs fetched. -/
def rssDispatch (dateFn : String → Option Int)
    (o : String → Except String RssFeed) (name : String)
    (args : List (String × Json)) : DispatchResult × List String :=
  if name = "fetch_feed" then
    match getField args "url" with
    | some (Json.str u) =>
        let limit := match getField args "limit" with
          | some (Json.num n) => some n
          | _ => none
        (DispatchResult.env (rssHandleFetchFeed o u limit), [u])
    | _ =>
        (DispatchResult.mcpError ErrorCode.invalidParams
          "URL is required and must be a string", [])
  else if name = "get_feed_items" then
    match getField args "url" with
    | some (Json.str u) =>
        let limit := match getField args "limit" with
          | some (Json.num n) => some n
          | _ => none
        let filter := match getField args "filter" with
          | some Json.null => some Json.null
          | some (Json.arr xs) => some (Json.arr xs)
          | some (Json.obj fs) => some (Json.obj fs)
          | _ => none
        (DispatchResult.env (rssHandleGetFeedItems dateFn o u limit filter), [u])
    | _ =>
        (DispatchResult.mcpError ErrorCode.invalidParams
          "URL is required and must be a string", [])
  else
    (DispatchResult.mcpError ErrorCode.methodNotFound ("Unknown tool: " ++ name), [])

/-! ## Obsidian adapter (`src/obsidian-server/src/index.ts`): catalog -/

/-- Catalog advertised by the Obsidian server's ListTools handler. -/
def obsidianTools : List ToolSchema :=
  [ { name := "read_note"
      description := "Read a note from the Obsidian vault"
      properties := ["path"]
      required := ["path"]
      defaults := [] },
    { name := "write_note"
      description := "Write a note to the Obsidian vault"
      properties := ["path", "content", "frontmatter"]
      required := ["path", "content"]
      defaults := [] },
    { name := "search_notes"
      description := "Search notes in the Obsidian vault"
      properties := ["query"]
      required := ["query"]
      defaults := [] } ]

/-- The Obsidian ListTools handler: returns the static catalog. -/
def obsidianListHandler (_ : Unit) : List ToolSchema := obsidianTools

/-! ## Apple Shortcuts adapter (`src/apple-shortcuts/src/index.ts`) -/

/-- Catalog advertised by the shortcuts server's ListTools handler (the
static `TOOLS` constant). -/
def shortcutsTools : List ToolSchema :=
  [ { name := "run_shortcut"
      description := "Run a Shortcuts automation by name"
      properties := ["name", "input"]
      required := ["name"]
      defaults := [] },
    { name := "list_shortcuts"
      description := "List all available shortcuts"
      properties := []
      required := []
      defaults := [] } ]

/-- The shortcuts ListTools handler: returns the static catalog. -/
def shortcutsListHandler (_ : Unit) : List ToolSchema := shortcutsTools

/-- `updateShortcutsList`: run `shortcuts list`; on success split stdout
into trimmed non-empty lines, on failure log and set the cached list to
empty (the failure is swallowed). -/
def updateShortcutsList (listExec : Except String String) : List String :=
  match listExec with
  | Except.ok stdout =>
      ((stdout.splitOn "\n").map String.trim).filter (fun line => line.length > 0)
  | Except.error _ => []

/-- The outcome of one shortcuts `handleToolCall`: a dispatch result, the
`availableShortcuts` global after the call, and the external commands
executed during the call. -/
structure ShortcutsStep where
  result : DispatchResult
  shortcuts : List String
  commands : List String

/-- The command string `run_shortcut` builds (input flag only when the
`input` argument is truthy). -/
def shortcutsRunCommand (args : List (String × Json)) : String :=
  if jsTruthyOpt (getField args "input") then
    "shortcuts run \"" ++ jsTemplateStringOpt (getField args "name") ++ "\" -i \"" ++
      jsTemplateStringOpt (getField args "input") ++ "\""
  else
    "shortcuts run \"" ++ jsTemplateStringOpt (getField args "name") ++ "\""

/-- `handleToolCall` of the shortcuts server.  `list_shortcuts` refreshes
the cached list (empty on refresh failure) and returns it joined under a
header with `isError:false`; `run_shortcut` returns stdout (or a success
message for empty stdout) with `isError:false`, or a failure envelope on
a non-zero exit; an unknown tool returns a failure envelope (nothing is
thrown and no command runs). -/
def shortcutsHandleToolCall (exec : String → Except String String)
    (state : List String) (name : String) (args : List (String × Json)) :
    ShortcutsStep :=
  if name = "list_shortcuts" then
    let updated := updateShortcutsList (exec "shortcuts list")
    { result := DispatchResult.env
        { content := [{ type := "text",
                        text := "Available shortcuts:\n" ++ String.intercalate "\n" updated }],
          isError := some false }
      shortcuts := updated
      commands := ["shortcuts list"] }
  else if name = "run_shortcut" then
    let command := shortcutsRunCommand args
    match exec command with
    | Except.ok stdout =>
        { result := DispatchResult.env
            { content := [{ type := "text",
                            text := if stdout == "" then "Shortcut executed successfully" else stdout }],
              isError := some false }
          shortcuts := state
          commands := [command] }
    | Except.error m =>
        { result := DispatchResult.env
            { content := [{ type := "text", text := "Failed to run shortcut: " ++ m }],
              isError := some true }
          shortcuts := state
          commands := [command] }
  else
    { result := DispatchResult.env
        { content := [{ type := "text", text := "Unknown tool: " ++ name }],
          isError := some true }
      shortcuts := state
      commands := [] }

/-! ## iOS Simulator adapter (ios-simulator server source) -/

/-- Catalog advertised by the ios-simulator server's ListTools handler
(input schemas produced from the zod object schemas, whose declared
fields are all required). -/
def iosSimTools : List ToolSchema :=
  [ { name := "list_simulators"
      description := "List all available iOS simulators"
      properties := []
      required := []
      defaults := [] },
    { name := "boot_simulator"
      description := "Boot an iOS simulator"
      properties := ["deviceId"]
      required := ["deviceId"]
      defaults := [] },
    { name := "shutdown_simulator"
      description := "Shutdown an iOS simulator"
      properties := ["deviceId"]
      required := ["deviceId"]
      defaults := [] },
    { name := "install_app"
      description := "Install an app on a simulator"
      properties := ["deviceId", "appPath"]
      required := ["deviceId", "appPath"]
      defaults := [] },
    { name := "launch_app"
      description := "Launch an installed app on a simulator"
      properties := ["deviceId", "bundleId"]
      required := ["deviceId", "bundleId"]
      defaults := [] } ]

/-- The ios-simulator ListTools handler: returns the static catalog. -/
def iosSimListHandler (_ : Unit) : List ToolSchema := iosSimTools

/-- A call to the `SimulatorService` backing capability. -/
inductive SimCall where
  | listDevices : SimCall
  | bootDevice (deviceId : String) : SimCall
  | shutdownDevice (deviceId : String) : SimCall
  | installApp (deviceId appPath : String) : SimCall
  | launchApp (deviceId bundleId : String) : SimCall

/-- The issue text of a zod validation failure; the precise `ZodError`
message formatting comes from the zod library and no claim depends on it,
so it is modelled as an opaque rendering of the failed field. -/
def zodIssueText (field : String) : String :=
  "invalid " ++ field

/-- Parse one required string field the way the zod object schemas do:
present string values succeed, anything else is a `ZodError`. -/
def zodStringField (args : List (String × Json)) (field : String) :
    Except String String :=
  match getField args field with
  | some (Json.str s) => Except.ok s
  | _ => Except.error (zodIssueText field)

/-- The ios-simulator CallTool handler.  A missing arguments object
throws; each tool validates with its zod schema (a `ZodError` is
rethrown as `Error("Invalid arguments: ...")`); successes return a bare
`{toolResult: ...}` value with no content blocks; service failures and
unknown tools are rethrown as plain errors. -/
def iosSimDispatch (o : SimCall → Except String Json)
    (argsOpt : Option (List (String × Json))) (name : String) :
    DispatchResult × List SimCall :=
  match argsOpt with
  | none => (DispatchResult.errorThrown "Arguments are required", [])
  | some args =>
    if name = "list_simulators" then
      match o SimCall.listDevices with
      | Except.ok devices =>
          (DispatchResult.toolResult (Json.obj [("devices", devices)]),
           [SimCall.listDevices])
      | Except.error m => (DispatchResult.errorThrown m, [SimCall.listDevices])
    else if name = "boot_simulator" then
      match zodStringField args "deviceId" with
      | Except.ok deviceId =>
          let call := SimCall.bootDevice deviceId
          match o call with
          | Except.ok _ =>
              (DispatchResult.toolResult (Json.obj [("success", Json.bool true)]), [call])
          | Except.error m => (DispatchResult.errorThrown m, [call])
      | Except.error issue =>
          (DispatchResult.errorThrown ("Invalid arguments: " ++ issue), [])
    else if name = "shutdown_simulator" then
      match zodStringField args "deviceId" with
      | Except.ok deviceId =>
          let call := SimCall.shutdownDevice deviceId
          match o call with
          | Except.ok _ =>
              (DispatchResult.toolResult (Json.obj [("success", Json.bool true)]), [call])
          | Except.error m => (DispatchResult.errorThrown m, [call])
      | Except.error issue =>
          (DispatchResult.errorThrown ("Invalid arguments: " ++ issue), [])
    else if name = "install_app" then
      match zodStringField args "deviceId" with
      | Except.ok deviceId =>
          match zodStringField args "appPath" with
          | Except.ok appPath =>
              let call := SimCall.installApp deviceId appPath
              match o call with
              | Except.ok _ =>
                  (DispatchResult.toolResult (Json.obj [("success", Json.bool true)]), [call])
              | Except.error m => (DispatchResult.errorThrown m, [call])
          | Except.error issue =>
              (DispatchResult.errorThrown ("Invalid arguments: " ++ issue), [])
      | Except.error issue =>
          (DispatchResult.errorThrown ("Invalid arguments: " ++ issue), [])
    else if name = "launch_app" then
      match zodStringField args "deviceId" with
      | Except.ok deviceId =>
          match zodStringField args "bundleId" with
          | Except.ok bundleId =>
              let call := SimCall.launchApp deviceId bundleId
              match o call with
              | Except.ok _ =>
                  (DispatchResult.toolResult (Json.obj [("success", Json.bool true)]), [call])
              | Except.error m => (DispatchResult.errorThrown m, [call])
          | Except.error issue =>
              (DispatchResult.errorThrown ("Invalid arguments: " ++ issue), [])
      | Except.error issue =>
          (DispatchResult.errorThrown ("Invalid arguments: " ++ issue), [])
    else
      (DispatchResult.errorThrown ("Unknown tool: " ++ name), [])

/-! ## Demo server (demo `index.ts`): catalog -/

/-- Catalog of the demo server's effective ListTools handler (its second
registration, which replaces the first). -/
def demoTools : List ToolSchema :=
  [ { name := "calculate_sum"
      description := "Add two numbers together"
      properties := ["a", "b"]
      required := ["a", "b"]
      defaults := [] } ]

/-! ## Claim theorems -/

/-- C5: If a required configuration value for the Backing Capability is
absent at process start (TELEGRAM_BOT_TOKEN, OBSIDIAN_VAULT_PATH,
SUPABASE_URL/SUPABASE_KEY, BLUESKY_APP_KEY/BLUESKY_IDENTIFIER), startup
fails — no capability handle is produced and no Call-Tool request can be
accepted — rather than failing per-request. -/
theorem c5_startup_failure :
    startupOk (telegramStartup none) = false
    ∧ startupOk (obsidianStartup none) = false
    ∧ (∀ key, startupOk (supabaseStartup none key) = false)
    ∧ (∀ url, startupOk (supabaseStartup url none) = false)
    ∧ (∀ ident login, startupOk (blueskyStartup none ident login) = false)
    ∧ (∀ token login, startupOk (blueskyStartup token none login) = false) := by
  refine ⟨rfl, rfl, fun key => rfl, fun url => ?_, fun ident login => rfl,
    fun token login => ?_⟩
  · cases url <;> simp [supabaseStartup, startupOk, jsStrFalsy]
  · cases token <;> simp [blueskyStartup, startupOk, jsStrFalsy]

/-- C6: When the catalog-refresh step against the external listing source
fails, the refreshed list is empty and the listing operation returns a
normal (non-error) envelope showing the empty catalog — the failure is
not propagated and nothing is thrown. -/
theorem c6_empty_catalog_on_failure :
    (∀ e, updateShortcutsList (Except.error e) = [])
    ∧ (∀ e st args,
        shortcutsHandleToolCall (fun _ => Except.error e) st "list_shortcuts" args
          = { result := DispatchResult.env
                { content := [{ type := "text", text := "Available shortcuts:\n" }],
                  isError := some false }
              shortcuts := []
              commands := ["shortcuts list"] }) :=
  ⟨fun _ => rfl, fun _ _ _ => rfl⟩

/-- C7: For every adapter without declared dynamic refresh, the ListTools
handler reads no state: any two invocations yield the same catalog, in
content and order. -/
theorem c7_listing_idempotent :
    (∀ a b : Unit, telegramListHandler a = telegramListHandler b)
    ∧ (∀ a b : Unit, obsidianListHandler a = obsidianListHandler b)
    ∧ (∀ a b : Unit, supabaseListHandler a = supabaseListHandler b)
    ∧ (∀ a b : Unit, blueskyListHandler a = blueskyListHandler b)
    ∧ (∀ a b : Unit, rssListHandler a = rssListHandler b)
    ∧ (∀ a b : Unit, iosSimListHandler a = iosSimListHandler b)
    ∧ (∀ a b : Unit, shortcutsListHandler a = shortcutsListHandler b) :=
  ⟨fun _ _ => rfl, fun _ _ => rfl, fun _ _ => rfl, fun _ _ => rfl,
   fun _ _ => rfl, fun _ _ => rfl, fun _ _ => rfl⟩

/-- C8: In every catalog returned by a ListTools handler, tool names are
unique: no two entries share the same name field. -/
theorem c8_unique_tool_names :
    (telegramTools.map ToolSchema.name).Nodup
    ∧ (obsidianTools.map ToolSchema.name).Nodup
    ∧ (supabaseTools.map ToolSchema.name).Nodup
    ∧ (blueskyTools.map ToolSchema.name).Nodup
    ∧ (rssTools.map ToolSchema.name).Nodup
    ∧ (shortcutsTools.map ToolSchema.name).Nodup
    ∧ (iosSimTools.map ToolSchema.name).Nodup
    ∧ (demoTools.map ToolSchema.name).Nodup := by
  decide

/-- C1 counterexample: in the Telegram adapter a capability failure does
escape as a thrown transport-level McpError (InternalError) instead of
being returned as an `isError:true` envelope, refuting the claim at a
concrete failing `send_message` invocation. -/
theorem c1_counterexample :
    (telegramDispatch (fun _ => Except.error "network down") "send_message"
        [("chat_id", Json.str "@x"), ("text", Json.str "hi")]).fst
      = DispatchResult.mcpError ErrorCode.internalError "Telegram API error: network down"
    ∧ DispatchResult.isFailureEnvelope
        (telegramDispatch (fun _ => Except.error "network down") "send_message"
          [("chat_id", Json.str "@x"), ("text", Json.str "hi")]).fst = false
    ∧ DispatchResult.isThrown
        (telegramDispatch (fun _ => Except.error "network down") "send_message"
          [("chat_id", Json.str "@x"), ("text", Json.str "hi")]).fst = true :=
  ⟨rfl, rfl, rfl⟩

/-- C1 amended: how each adapter actually surfaces a capability failure.
Supabase, RSS and Apple Shortcuts return `isError:true` envelopes whose
text carries the cause; Bluesky returns an envelope serializing the cause
but sets no `isError` flag; Telegram re-throws the failure as a
transport-level `McpError(InternalError)`. -/
theorem c1_amended :
    (∀ m, (supabaseDispatch (fun _ => Except.error m) "query_data"
        [("table", Json.str "t"), ("select", Json.str "*")]).fst
      = DispatchResult.env
          { content := [{ type := "text", text := "Error: " ++ m }],
            isError := some true })
    ∧ (∀ m u dateFn,
        (rssDispatch dateFn (fun _ => Except.error m) "fetch_feed"
            [("url", Json.str u)]).fst
          = DispatchResult.env
              { content := [{ type := "text", text := "Failed to fetch feed: " ++ m }],
                isError := some true })
    ∧ (∀ m st args,
        (shortcutsHandleToolCall (fun _ => Except.error m) st "run_shortcut" args).result
          = DispatchResult.env
              { content := [{ type := "text", text := "Failed to run shortcut: " ++ m }],
                isError := some true })
    ∧ (∀ m ident,
        (blueskyDispatch ident (fun _ => Except.error m) (some []) "bluesky_get_profile").fst
          = DispatchResult.env
              { content := [{ type := "text",
                              text := jsonStringify (Json.obj [("error", Json.str m)]) }],
                isError := none })
    ∧ (∀ m, (telegramDispatch (fun _ => Except.error m) "send_message"
        [("chat_id", Json.str "@x"), ("text", Json.str "hi")]).fst
      = DispatchResult.mcpError ErrorCode.internalError ("Telegram API error: " ++ m)) :=
  ⟨fun _ => rfl, fun _ _ _ => rfl, fun _ _ _ => rfl, fun _ _ => rfl, fun _ => rfl⟩

/-- C4 counterexample: a successful `list_simulators` invocation in the
ios-simulator adapter returns a bare `toolResult` value with no content
blocks at all, refuting the claim that every successful invocation yields
an envelope with exactly one text block. -/
theorem c4_counterexample :
    iosSimDispatch (fun _ => Except.ok (Json.arr [])) (some []) "list_simulators"
      = (DispatchResult.toolResult (Json.obj [("devices", Json.arr [])]),
         [SimCall.listDevices])
    ∧ DispatchResult.isSingleTextSuccessEnvelope
        (iosSimDispatch (fun _ => Except.ok (Json.arr [])) (some []) "list_simulators").fst
      = false :=
  ⟨rfl, rfl⟩

/-- C4 amended: for the JSON-serializing adapters (Telegram, Supabase,
RSS, Bluesky) a successful capability call returns an envelope with no
`isError` flag and exactly one text content block holding the JSON
serialization of the capability's result (for RSS, of the projected and
limit-truncated feed view); the ios-simulator adapter instead returns a
bare `toolResult` value with no content blocks. -/
theorem c4_amended :
    (∀ j c t, telegramDispatch (fun _ => Except.ok j) "send_message"
        [("chat_id", Json.str c), ("text", Json.str t)]
      = (DispatchResult.env
          { content := [{ type := "text", text := jsonStringify j }], isError := none },
         [TgCall.sendMessage (some (Json.str c)) (some (Json.str t)) none]))
    ∧ (∀ j t s, supabaseDispatch (fun _ => Except.ok j) "query_data"
        [("table", Json.str t), ("select", Json.str s)]
      = (DispatchResult.env
          { content := [{ type := "text", text := jsonStringify j }], isError := none },
         [SbCall.queryData (some (Json.str t)) (some (Json.str s)) [] none]))
    ∧ (∀ feed u dateFn, rssDispatch dateFn (fun _ => Except.ok feed) "fetch_feed"
        [("url", Json.str u)]
      = (DispatchResult.env
          { content := [{ type := "text",
                          text := jsonStringify (rssFetchFeedJson feed (jsSliceTo feed.items 10)) }],
            isError := none },
         [u]))
    ∧ (∀ j ident, blueskyDispatch ident (fun _ => Except.ok j) (some []) "bluesky_get_posts"
      = (DispatchResult.env
          { content := [{ type := "text", text := jsonStringify j }], isError := none },
         [BkCall.getAuthorFeed ident none none]))
    ∧ (∀ j, iosSimDispatch (fun _ => Except.ok j) (some []) "list_simulators"
      = (DispatchResult.toolResult (Json.obj [("devices", j)]), [SimCall.listDevices])) :=
  ⟨fun _ _ _ => rfl, fun _ _ _ => rfl, fun _ _ _ => rfl, fun _ _ => rfl, fun _ => rfl⟩

/-- C2 counterexample: `send_message` invoked with only `text` (missing
the required `chat_id`): the Telegram adapter still calls the backing
capability (with an undefined chat id) and the outcome is not an
InvalidParams-kind outcome, refuting both halves of the claim. -/
theorem c2_counterexample :
    ((telegramTools.find? (fun t => t.name == "send_message")).map ToolSchema.required)
      = some ["chat_id", "text"]
    ∧ getField [("text", Json.str "hi")] "chat_id" = none
    ∧ (telegramDispatch (fun _ => Except.error "boom") "send_message"
        [("text", Json.str "hi")]).snd
      = [TgCall.sendMessage none (some (Json.str "hi")) none]
    ∧ DispatchResult.isInvalidParamsKind
        (telegramDispatch (fun _ => Except.error "boom") "send_message"
          [("text", Json.str "hi")]).fst = false :=
  ⟨rfl, rfl, rfl, rfl⟩


/-- The Telegram catch-all wrapper changes only the dispatch result, not
the list of capability calls made inside the try block. -/
theorem telegramDispatch_snd (o : TgCall → Except String Json) (name : String)
    (args : List (String × Json)) :
    (telegramDispatch o name args).snd = (telegramTry o name args).snd := by
  unfold telegramDispatch
  obtain ⟨res, calls⟩ := telegramTry o name args
  cases res <;> rfl

/-- Running one Telegram capability call records exactly that call,
whatever the oracle answers. -/
theorem telegramRun_snd (o : TgCall → Except String Json) (call : TgCall) :
    (telegramRun o call).snd = [call] := by
  unfold telegramRun
  cases o call <;> rfl

/-- C2 amended: validation of required fields is per-adapter, not
universal.  The RSS adapter checks its required `url` before fetching: a
missing `url` yields a thrown `McpError(InvalidParams)` and no capability
call.  The Telegram adapter performs no validation at all: `send_message`
without the required `chat_id` still invokes the backing capability, with
the missing field passed as undefined. -/
theorem c2_amended :
    (∀ dateFn o, rssDispatch dateFn o "fetch_feed" []
      = (DispatchResult.mcpError ErrorCode.invalidParams
          "URL is required and must be a string", []))
    ∧ (∀ dateFn o, rssDispatch dateFn o "get_feed_items" []
      = (DispatchResult.mcpError ErrorCode.invalidParams
          "URL is required and must be a string", []))
    ∧ (∀ o, (telegramDispatch o "send_message" [("text", Json.str "hi")]).snd
      = [TgCall.sendMessage none (some (Json.str "hi")) none]) := by
  refine ⟨fun dateFn o => rfl, fun dateFn o => rfl, fun o => ?_⟩
  rw [telegramDispatch_snd]
  exact telegramRun_snd o _

/-- C3 counterexample: in the Telegram adapter the default case's
MethodNotFound error is caught by the handler's own catch-all and
re-thrown as an InternalError McpError, so the outcome for an unknown
tool is neither a MethodNotFound protocol error nor a failure envelope —
refuting the claim at a concrete input (no capability is called, though). -/
theorem c3_counterexample :
    (telegramDispatch (fun _ => Except.error "e") "unknown_tool" []).fst
      = DispatchResult.mcpError ErrorCode.internalError
          "Telegram API error: MCP error -32601: Unknown tool: unknown_tool"
    ∧ DispatchResult.isMethodNotFoundKind
        (telegramDispatch (fun _ => Except.error "e") "unknown_tool" []).fst = false
    ∧ (telegramDispatch (fun _ => Except.error "e") "unknown_tool" []).snd = [] :=
  ⟨rfl, rfl, rfl⟩

/-- C3 amended: for every tool name outside the catalog no backing
capability is ever called, but the outcome kind differs per adapter: the
RSS adapter throws `McpError(MethodNotFound)`, the Apple Shortcuts
adapter returns an `isError:true` envelope, and the Telegram adapter
wraps its own MethodNotFound error into a thrown
`McpError(InternalError)` whose message embeds the unknown-tool cause. -/
theorem c3_amended :
    (∀ n dateFn o args, n ∉ rssTools.map ToolSchema.name →
      rssDispatch dateFn o n args
        = (DispatchResult.mcpError ErrorCode.methodNotFound ("Unknown tool: " ++ n), []))
    ∧ (∀ n exec st args, n ∉ shortcutsTools.map ToolSchema.name →
      shortcutsHandleToolCall exec st n args
        = { result := DispatchResult.env
              { content := [{ type := "text", text := "Unknown tool: " ++ n }],
                isError := some true }
            shortcuts := st
            commands := [] })
    ∧ (∀ n o args, n ∉ telegramTools.map ToolSchema.name →
      telegramDispatch o n args
        = (DispatchResult.mcpError ErrorCode.internalError
            ("Telegram API error: " ++
              JsError.message (JsError.mcp ErrorCode.methodNotFound ("Unknown tool: " ++ n))), [])) := by
  refine ⟨fun n dateFn o args h => ?_, fun n exec st args h => ?_, fun n o args h => ?_⟩
  · simp [rssTools] at h
    simp [rssDispatch, h.1, h.2]
  · simp [shortcutsTools] at h
    simp [shortcutsHandleToolCall, h.1, h.2]
  · simp [telegramTools] at h
    simp [telegramDispatch, telegramTry, h.1, h.2.1, h.2.2.1, h.2.2.2]

/-- C3 witness: the amended statement instantiated at the concrete
unknown tool name `unknown_tool` with all hypotheses discharged. -/
theorem c3_amended_witness :
    rssDispatch (fun _ => none) (fun _ => Except.error "e") "unknown_tool" []
      = (DispatchResult.mcpError ErrorCode.methodNotFound "Unknown tool: unknown_tool", [])
    ∧ shortcutsHandleToolCall (fun _ => Except.error "e") [] "unknown_tool" []
      = { result := DispatchResult.env
            { content := [{ type := "text", text := "Unknown tool: unknown_tool" }],
              isError := some true }
          shortcuts := []
          commands := [] }
    ∧ telegramDispatch (fun _ => Except.error "e") "unknown_tool" []
      = (DispatchResult.mcpError ErrorCode.internalError
          ("Telegram API error: " ++
            JsError.message (JsError.mcp ErrorCode.methodNotFound "Unknown tool: unknown_tool")), []) :=
  ⟨c3_amended.1 "unknown_tool" (fun _ => none) (fun _ => Except.error "e") [] (by decide),
   c3_amended.2.1 "unknown_tool" (fun _ => Except.error "e") [] [] (by decide),
   c3_amended.2.2 "unknown_tool" (fun _ => Except.error "e") [] (by decide)⟩

/-- The Bluesky catch block changes only the dispatch result, not the
list of capability calls made inside the try block. -/
theorem blueskyDispatch_snd (ident : String) (o : BkCall → Except String Json)
    (argsOpt : Option (List (String × Json))) (name : String) :
    (blueskyDispatch ident o argsOpt name).snd
      = (blueskyTry ident o argsOpt name).snd := by
  unfold blueskyDispatch
  obtain ⟨res, calls⟩ := blueskyTry ident o argsOpt name
  cases res <;> rfl

/-- Running one Bluesky capability call records exactly that call,
whatever the oracle answers. -/
theorem blueskyRun_snd (o : BkCall → Except String Json) (call : BkCall) :
    (blueskyRun o call).snd = [call] := by
  unfold blueskyRun
  cases o call <;> rfl

/-- C9 counterexample: `bluesky_get_posts` declares `default: 50` for
`limit` in its advertised schema, yet invoking it without `limit` calls
the backing capability with the field still undefined — the declared
default is not substituted. -/
theorem c9_counterexample :
    getPostsTool.defaults = [("limit", Json.num 50)]
    ∧ (blueskyDispatch "alice" (fun _ => Except.error "down") (some [])
        "bluesky_get_posts").snd
      = [BkCall.getAuthorFeed "alice" none none]
    ∧ [BkCall.getAuthorFeed "alice" none none]
        ≠ [BkCall.getAuthorFeed "alice" (some (Json.num 50)) none] :=
  ⟨rfl, rfl, by simp⟩

/-- C9 amended: optional-field defaulting is inconsistent with the
advertised schemas.  The Telegram `get_updates` handler substitutes
hard-coded defaults (limit 10, timeout 0) during destructuring although
its advertised schema declares no `default` fields; the Bluesky adapter
declares `default: 50` for `bluesky_get_posts`' limit but forwards the
absent field to the backing capability as undefined. -/
theorem c9_amended :
    ((telegramTools.find? (fun t => t.name == "get_updates")).map ToolSchema.defaults)
      = some []
    ∧ (∀ o, (telegramDispatch o "get_updates" []).snd
        = [TgCall.getUpdates (Json.num 10) (Json.num 0)])
    ∧ getPostsTool.defaults = [("limit", Json.num 50)]
    ∧ (∀ o ident, (blueskyDispatch ident o (some []) "bluesky_get_posts").snd
        = [BkCall.getAuthorFeed ident none none]) := by
  refine ⟨rfl, fun o => ?_, rfl, fun o ident => ?_⟩
  · rw [telegramDispatch_snd]
    exact telegramRun_snd o _
  · rw [blueskyDispatch_snd]
    exact blueskyRun_snd o _

/-- C10: invoking with `limit` equal to 0 produces exactly the same
dispatch outcome (result and capability calls) as omitting `limit`: the
RSS tools replace the falsy 0 by the default 10 (`args.limit || 10`), and
the Supabase `query_data` tool skips the falsy limit (`if (limit)`), so
no zero-item truncation ever happens. -/
theorem c10_zero_limit_as_absent :
    (∀ dateFn o u, rssDispatch dateFn o "fetch_feed"
        [("url", Json.str u), ("limit", Json.num 0)]
      = rssDispatch dateFn o "fetch_feed" [("url", Json.str u)])
    ∧ (∀ dateFn o u f, rssDispatch dateFn o "get_feed_items"
        [("url", Json.str u), ("limit", Json.num 0), ("filter", Json.obj f)]
      = rssDispatch dateFn o "get_feed_items"
          [("url", Json.str u), ("filter", Json.obj f)])
    ∧ (∀ o t s, supabaseDispatch o "query_data"
        [("table", Json.str t), ("select", Json.str s), ("limit", Json.num 0)]
      = supabaseDispatch o "query_data"
          [("table", Json.str t), ("select", Json.str s)]) := by
  refine ⟨fun dateFn o u => ?_, fun dateFn o u f => ?_, fun o t s => ?_⟩
  · rfl
  · rfl
  · rfl
